import Mathlib

/-!
Verification development for the LLM gateway: a shallow embedding of the
request data model, provider registry, response cache, retry client,
health checks, rate limiter and the chat-completion handler, with theorems
about routing, caching, accounting, retries and rate limiting.

Conventions: Go machine integers are embedded as `Int`/`Nat`; Go `float64`
configuration and usage values that only flow through unchanged are
embedded as `Rat`; byte slices are `List Nat`; `nil`-able pointers are
`Option`; time instants are `Nat` ticks supplied explicitly to each
operation.
-/

/-- Gateway-only request extensions (`x-gateway`), from the provider types. -/
structure GatewayExtensions where
  cache : Option Bool
  timeout : Option Int
  provider : String
  metadata : List (String × String)
deriving DecidableEq

/-- One chat message, from the provider types. -/
structure Message where
  role : String
  content : String
  name : String
deriving DecidableEq

/-- The OpenAI-compatible canonical request, from the provider types. -/
structure ChatCompletionRequest where
  model : String
  messages : List Message
  temperature : Option Rat
  topP : Option Rat
  n : Option Int
  stream : Bool
  stop : List String
  maxTokens : Option Int
  presencePenalty : Option Rat
  frequencyPenalty : Option Rat
  user : String
  xGateway : Option GatewayExtensions
deriving DecidableEq

/-- Token usage accounting on a canonical response. -/
structure Usage where
  promptTokens : Int
  completionTokens : Int
  totalTokens : Int
deriving DecidableEq

/-- Per-token log probability entry. -/
structure LogprobContent where
  token : String
  logprob : Rat
deriving DecidableEq

/-- Log probabilities attached to a choice. -/
structure Logprobs where
  content : List LogprobContent
deriving DecidableEq

/-- One response choice. -/
structure Choice where
  index : Int
  message : Message
  finishReason : String
  logprobs : Option Logprobs
deriving DecidableEq

/-- The OpenAI-compatible canonical response. -/
structure ChatCompletionResponse where
  id : String
  object : String
  created : Int
  model : String
  choices : List Choice
  usage : Usage
  systemFingerprint : String
deriving DecidableEq

/-- Structured provider error, from the provider types. -/
structure ProviderError where
  provider : String
  statusCode : Nat
  message : String
  type : String
deriving DecidableEq

/-- One usage record handed to the metrics collector per request. -/
structure ProviderMetrics where
  provider : String
  model : String
  promptTokens : Int
  completionTokens : Int
  totalTokens : Int
  latencyMs : Int
  cost : Rat
  cached : Bool
  success : Bool
  timestamp : Nat
deriving DecidableEq

/-- Which upstream wire shape a provider client speaks. -/
inductive ProviderKind where
  | openai
  | anthropic
deriving DecidableEq

/-- Short Anthropic model aliases accepted by `SupportsModel`. -/
def anthropicShortNames : List String :=
  ["claude-3-opus", "claude-3-sonnet", "claude-3-haiku", "claude-3-5-sonnet"]

/-- A configured provider client as the registry sees it. -/
structure Provider where
  kind : ProviderKind
  name : String
  models : List String
deriving DecidableEq

/-- SupportsModel: list membership, plus short-name aliases for Anthropic. -/
def supportsModel (p : Provider) (model : String) : Bool :=
  p.models.contains model ||
    (p.kind == ProviderKind.anthropic && anthropicShortNames.contains model)

/-- The provider registry state: providers by name, model alias table,
default provider and fallback chain. -/
structure Registry where
  providers : List (String × Provider)
  modelMapping : List (String × String)
  fallbackChain : List String
  defaultProvider : String
deriving DecidableEq

/-- Scan of all providers for one whose `SupportsModel` accepts the model,
mirroring the loop in `Registry.GetForModel`. -/
def scanProviders (ps : List (String × Provider)) (model : String) : Option Provider :=
  match ps.find? (fun pr => supportsModel pr.2 model) with
  | some pr => some pr.2
  | none => none

/-- Steps (2) and (3) of `Registry.GetForModel`: supporting-provider scan,
then the configured default provider, else a not-found error. -/
def getForModelFallback (r : Registry) (model : String) : Except String Provider :=
  match scanProviders r.providers model with
  | some p => Except.ok p
  | none =>
    if r.defaultProvider ≠ "" then
      match List.lookup r.defaultProvider r.providers with
      | some p => Except.ok p
      | none => Except.error ("no provider found for model: " ++ model)
    else Except.error ("no provider found for model: " ++ model)

/-- `Registry.GetForModel`: alias table first (falling through when the
mapped provider is missing), then the supporting-provider scan, then the
default provider. -/
def getForModel (r : Registry) (model : String) : Except String Provider :=
  match List.lookup model r.modelMapping with
  | some pname =>
    match List.lookup pname r.providers with
    | some p => Except.ok p
    | none => getForModelFallback r model
  | none => getForModelFallback r model

/-- Static per-model price table (USD per 1K tokens), from `ModelPricing`. -/
def modelPricing : List (String × (Rat × Rat)) :=
  [("gpt-4", (0.03, 0.06)),
   ("gpt-4-32k", (0.06, 0.12)),
   ("gpt-4-turbo", (0.01, 0.03)),
   ("gpt-4o", (0.005, 0.015)),
   ("gpt-4o-mini", (0.00015, 0.0006)),
   ("gpt-3.5-turbo", (0.0005, 0.0015)),
   ("claude-3-opus", (0.015, 0.075)),
   ("claude-3-sonnet", (0.003, 0.015)),
   ("claude-3-haiku", (0.00025, 0.00125)),
   ("claude-3-5-sonnet", (0.003, 0.015))]

/-- `CalculateCost`: per-1K-token pricing, zero for unknown models. -/
def calculateCost (model : String) (promptTokens completionTokens : Int) : Rat :=
  match List.lookup model modelPricing with
  | none => 0
  | some pr => ((promptTokens : Rat) / 1000) * pr.1 + ((completionTokens : Rat) / 1000) * pr.2

/-! SHA-256 over byte lists, used by `generateCacheKey`. Words are `Nat`
reduced mod 2^32 at every operation. -/

/-- Reduce a word mod 2^32. -/
def w32 (n : Nat) : Nat := n % 4294967296

/-- Rotate a 32-bit word right by `n` bits. -/
def rotr32 (n x : Nat) : Nat := w32 ((x >>> n) ||| (x <<< (32 - n)))

/-- SHA-256 round constants. -/
def sha256K : List Nat :=
  [1116352408, 1899447441, 3049323471, 3921009573, 961987163, 1508970993,
   2453635748, 2870763221, 3624381080, 310598401, 607225278, 1426881987,
   1925078388, 2162078206, 2614888103, 3248222580, 3835390401, 4022224774,
   264347078, 604807628, 770255983, 1249150122, 1555081692, 1996064986,
   2554220882, 2821834349, 2952996808, 3210313671, 3336571891, 3584528711,
   113926993, 338241895, 666307205, 773529912, 1294757372, 1396182291,
   1695183700, 1986661051, 2177026350, 2456956037, 2730485921, 2820302411,
   3259730800, 3345764771, 3516065817, 3600352804, 4094571909, 275423344,
   430227734, 506948616, 659060556, 883997877, 958139571, 1322822218,
   1537002063, 1747873779, 1955562222, 2024104815, 2227730452, 2361852424,
   2428436474, 2756734187, 3204031479, 3329325298]

/-- SHA-256 initial hash state. -/
def sha256H0 : List Nat :=
  [1779033703, 3144134277, 1013904242, 2773480762,
   1359893119, 2600822924, 528734635, 1541459225]

/-- Message padding: append 0x80, zeros to 56 mod 64, then the bit length
as 8 big-endian bytes. -/
def sha256Pad (msg : List Nat) : List Nat :=
  let bitLen := 8 * msg.length
  let padZeros := (55 + 64 - msg.length % 64) % 64
  msg ++ [128] ++ List.replicate padZeros 0 ++
    (List.range 8).map (fun i => (bitLen >>> (8 * (7 - i))) % 256)

/-- Split a byte list into 64-byte blocks. -/
def chunks64 (l : List Nat) : List (List Nat) :=
  if h : l = [] then []
  else (l.take 64) :: chunks64 (l.drop 64)
termination_by l.length
decreasing_by
  simp only [List.length_drop]
  exact Nat.sub_lt (List.length_pos.mpr h) (by omega)

/-- First small sigma function. -/
def sSigma0 (x : Nat) : Nat := rotr32 7 x ^^^ rotr32 18 x ^^^ (x >>> 3)

/-- Second small sigma function. -/
def sSigma1 (x : Nat) : Nat := rotr32 17 x ^^^ rotr32 19 x ^^^ (x >>> 10)

/-- First big sigma function. -/
def bSigma0 (x : Nat) : Nat := rotr32 2 x ^^^ rotr32 13 x ^^^ rotr32 22 x

/-- Second big sigma function. -/
def bSigma1 (x : Nat) : Nat := rotr32 6 x ^^^ rotr32 11 x ^^^ rotr32 25 x

/-- Choice function of the compression round. -/
def chFun (x y z : Nat) : Nat := (x &&& y) ^^^ ((x ^^^ 4294967295) &&& z)

/-- Majority function of the compression round. -/
def majFun (x y z : Nat) : Nat := (x &&& y) ^^^ (x &&& z) ^^^ (y &&& z)

/-- The 16 initial 32-bit words of a 64-byte block, big-endian. -/
def blockWords (b : List Nat) : List Nat :=
  (List.range 16).map (fun i =>
    (b.getD (4 * i) 0) <<< 24 ||| (b.getD (4 * i + 1) 0) <<< 16 |||
    (b.getD (4 * i + 2) 0) <<< 8 ||| b.getD (4 * i + 3) 0)

/-- Extend the message schedule by `count` further words. -/
def extendSchedule (w : List Nat) : Nat → List Nat
  | 0 => w
  | count + 1 =>
    let t := w.length
    let next := w32 (sSigma1 (w.getD (t - 2) 0) + w.getD (t - 7) 0 +
      sSigma0 (w.getD (t - 15) 0) + w.getD (t - 16) 0)
    extendSchedule (w ++ [next]) count

/-- One compression round on the eight working registers. -/
def sha256Round (st : List Nat) (k w : Nat) : List Nat :=
  match st with
  | [a, b, c, d, e, f, g, h] =>
    let t1 := w32 (h + bSigma1 e + chFun e f g + k + w)
    let t2 := w32 (bSigma0 a + majFun a b c)
    [w32 (t1 + t2), a, b, c, w32 (d + t1), e, f, g]
  | other => other

/-- Compress one 64-byte block into the running hash state. -/
def compressBlock (h : List Nat) (block : List Nat) : List Nat :=
  let ws := extendSchedule (blockWords block) 48
  let st := (sha256K.zip ws).foldl (fun st kw => sha256Round st kw.1 kw.2) h
  (h.zip st).map (fun p => w32 (p.1 + p.2))

/-- SHA-256 of a byte list, as eight 32-bit words. -/
def sha256Words (msg : List Nat) : List Nat :=
  (chunks64 (sha256Pad msg)).foldl compressBlock sha256H0

/-- Lower-case hex digit. -/
def hexDigit (n : Nat) : Char := "0123456789abcdef".toList.getD n '0'

/-- Eight hex digits of a 32-bit word. -/
def wordHex (w : Nat) : String :=
  String.mk ((List.range 8).map (fun i => hexDigit ((w >>> (4 * (7 - i))) &&& 15)))

/-- Hex encoding of a SHA-256 digest. -/
def sha256Hex (msg : List Nat) : String :=
  String.join ((sha256Words msg).map wordHex)

/-- Code points of a string as the hashed byte stream. Byte-level encoding
of the marshaled JSON is abstracted to the character sequence; the result
is still a deterministic function of the string. -/
def strBytes (s : String) : List Nat := s.toList.map Char.toNat

/-! JSON marshaling of the fingerprint struct in `generateCacheKey`: the
anonymous struct has untagged fields `Model`, `Messages`, `Temperature`,
`MaxTokens`; `Message` serializes with tags `role`, `content` and
`name,omitempty`; nil pointers marshal as `null`. JSON number rendering of
the temperature is abstracted by an exact rational rendering, again a
deterministic function of the value. -/

/-- Escape one character for a JSON string literal. -/
def jsonEscChar (c : Char) : String :=
  if c = '"' then "\\\"" else if c = '\\' then "\\\\" else String.singleton c

/-- A JSON string literal. -/
def jsonStr (s : String) : String :=
  "\"" ++ String.join (s.toList.map jsonEscChar) ++ "\""

/-- Rendering of a rational JSON number. -/
def jsonRat (q : Rat) : String :=
  if q.den = 1 then toString q.num else toString q.num ++ "/" ++ toString q.den

/-- An optional rational, `null` when absent. -/
def jsonOptRat (q : Option Rat) : String :=
  match q with
  | none => "null"
  | some v => jsonRat v

/-- An optional integer, `null` when absent. -/
def jsonOptInt (n : Option Int) : String :=
  match n with
  | none => "null"
  | some v => toString v

/-- One message object, honoring the `omitempty` tag on `name`. -/
def jsonMessage (m : Message) : String :=
  "\x7b\"role\":" ++ jsonStr m.role ++ ",\"content\":" ++ jsonStr m.content ++
    (if m.name = "" then "" else ",\"name\":" ++ jsonStr m.name) ++ "\x7d"

/-- The message array. -/
def jsonMessages (ms : List Message) : String :=
  "[" ++ String.intercalate "," (ms.map jsonMessage) ++ "]"

/-- The marshaled fingerprint struct of `generateCacheKey`: exactly the
model, messages, temperature and maxTokens fields of the request. -/
def fingerprintData (req : ChatCompletionRequest) : String :=
  "\x7b\"Model\":" ++ jsonStr req.model ++
    ",\"Messages\":" ++ jsonMessages req.messages ++
    ",\"Temperature\":" ++ jsonOptRat req.temperature ++
    ",\"MaxTokens\":" ++ jsonOptInt req.maxTokens ++ "\x7d"

/-- `Server.generateCacheKey`: hex-encoded SHA-256 of the marshaled
fingerprint struct. -/
def generateCacheKey (req : ChatCompletionRequest) : String :=
  sha256Hex (strBytes (fingerprintData req))

/-! The in-memory LRU+TTL response cache (`MemoryCache`). The Go map and
the intrusive LRU list are always kept in sync, so they are embedded as a
single association list ordered by recency, front = most recently used. -/

/-- One cache entry: key, stored bytes, absolute expiry tick. -/
structure CacheItem where
  key : String
  value : List Nat
  expiresAt : Nat
deriving DecidableEq

/-- Cache state: capacity bound in bytes, TTL, entries in recency order. -/
structure MemCache where
  maxSize : Nat
  ttl : Nat
  items : List CacheItem
  hits : Nat
  misses : Nat
deriving DecidableEq

/-- A fresh cache (`NewMemoryCache`, with the size already in bytes). -/
def MemCache.empty (maxSize ttl : Nat) : MemCache :=
  { maxSize := maxSize, ttl := ttl, items := [], hits := 0, misses := 0 }

/-- Total byte size of stored values (`MemoryCache.currentSize`). -/
def csize (l : List CacheItem) : Nat := (l.map (fun it => it.value.length)).sum

/-- Map lookup by key. -/
def lookupItem (l : List CacheItem) (k : String) : Option CacheItem :=
  l.find? (fun it => it.key == k)

/-- Removal of a key (`MemoryCache.removeItem`). -/
def removeKey (k : String) (l : List CacheItem) : List CacheItem :=
  l.filter (fun it => !(it.key == k))

/-- `MemoryCache.Get`: miss on absent key; lazy-expire and miss when past
`expiresAt`; on a hit move the entry to the front of the recency order. -/
def MemCache.get (c : MemCache) (now : Nat) (k : String) : Option (List Nat) × MemCache :=
  match lookupItem c.items k with
  | none => (none, { c with misses := c.misses + 1 })
  | some it =>
    if now > it.expiresAt then
      (none, { c with items := removeKey k c.items, misses := c.misses + 1 })
    else
      (some it.value, { c with items := it :: removeKey k c.items, hits := c.hits + 1 })

/-- One step of `MemoryCache.evictOldest`: drop the entry at the back of
the recency order (the least recently used), never reading `expiresAt`. -/
def evictItems (items : List CacheItem) : List CacheItem :=
  match items.getLast? with
  | some it => removeKey it.key items
  | none => items

/-- Removing an element failing the filter shortens the list. -/
theorem length_filter_lt_of_mem {α : Type} (p : α → Bool) (l : List α) (x : α)
    (hx : x ∈ l) (hpx : p x = false) : (l.filter p).length < l.length := by
  induction l with
  | nil => cases hx
  | cons a as ih =>
    rcases List.mem_cons.mp hx with h1 | h1
    · subst h1
      have hfe : (x :: as).filter p = as.filter p := by
        simp [List.filter_cons, hpx]
      rw [hfe]
      have hle : (as.filter p).length ≤ as.length := List.length_filter_le p as
      simp only [List.length_cons]
      omega
    · have hlt : (as.filter p).length < as.length := ih h1
      cases hpa : p a with
      | true =>
        have hfe : (a :: as).filter p = a :: as.filter p := by
          simp [List.filter_cons, hpa]
        rw [hfe]
        simp only [List.length_cons]
        omega
      | false =>
        have hfe : (a :: as).filter p = as.filter p := by
          simp [List.filter_cons, hpa]
        rw [hfe]
        simp only [List.length_cons]
        omega

/-- Evicting from a non-empty list strictly shrinks it. -/
theorem evictItems_length_lt (items : List CacheItem) (h : items ≠ []) :
    (evictItems items).length < items.length := by
  unfold evictItems
  cases hlast : items.getLast? with
  | none => exact absurd (List.getLast?_eq_none_iff.mp hlast) h
  | some it =>
    have hmem : it ∈ items := by
      obtain ⟨hne, heq⟩ := List.mem_getLast?_eq_getLast (Option.mem_def.mpr hlast)
      rw [heq]
      exact List.getLast_mem hne
    exact length_filter_lt_of_mem _ items it hmem (by simp)

/-- The eviction loop of `MemoryCache.Set`: while the new value would
exceed the bound and entries remain, evict the least recently used. The
loop is run with fuel `items.length`, which bounds its iteration count
since every eviction removes at least one entry. -/
def setEvictLoop (maxSize vlen : Nat) : Nat → List CacheItem → List CacheItem
  | 0, items => items
  | fuel + 1, items =>
    if csize items + vlen > maxSize && !items.isEmpty then
      setEvictLoop maxSize vlen fuel (evictItems items)
    else items

/-- `MemoryCache.Set`: an existing key is updated in place (value and
expiry) and moved to the front, with no size check; a new key first runs
the eviction loop, then is pushed to the front. -/
def MemCache.set (c : MemCache) (now : Nat) (k : String) (v : List Nat) : MemCache :=
  match lookupItem c.items k with
  | some it =>
    { c with items := { it with value := v, expiresAt := now + c.ttl } :: removeKey k c.items }
  | none =>
    let remaining := setEvictLoop c.maxSize v.length c.items.length c.items
    { c with items := { key := k, value := v, expiresAt := now + c.ttl } :: remaining }

/-- `MemoryCache.Delete`. -/
def MemCache.del (c : MemCache) (k : String) : MemCache :=
  match lookupItem c.items k with
  | some _ => { c with items := removeKey k c.items }
  | none => c

/-- `MemoryCache.Clear`. -/
def MemCache.clear (c : MemCache) : MemCache := { c with items := [] }

/-- One cache operation with its happening time. -/
inductive CacheOp where
  | get (now : Nat) (k : String)
  | set (now : Nat) (k : String) (v : List Nat)
  | del (k : String)
  | clear
deriving DecidableEq

/-- Application of one operation to the cache state. -/
def applyOp (c : MemCache) : CacheOp → MemCache
  | CacheOp.get now k => (MemCache.get c now k).2
  | CacheOp.set now k v => MemCache.set c now k v
  | CacheOp.del k => MemCache.del c k
  | CacheOp.clear => MemCache.clear c

/-- A whole operation sequence. -/
def runOps (c : MemCache) (ops : List CacheOp) : MemCache := ops.foldl applyOp c

/-- Safety of a sequence: every `set` targets a key not currently present
and a value that fits the capacity on its own. -/
def safeOps (c : MemCache) : List CacheOp → Bool
  | [] => true
  | op :: rest =>
    (match op with
     | CacheOp.set _ k v => (lookupItem c.items k).isNone && v.length ≤ c.maxSize
     | _ => true) && safeOps (applyOp c op) rest

/-! The provider HTTP clients: retry loop, error wrapping, health checks,
request cleaning and the Anthropic request/response translation. Network
effects are embedded as an oracle giving the outcome of each attempt. -/

/-- Outcome of one upstream HTTP attempt. -/
inductive AttemptResult where
  | transportErr (msg : String)
  | response (status : Nat) (body : String)
deriving DecidableEq

/-- Retry trigger of `doWithRetry`: transport failure, 429, or 5xx. -/
def retriable : AttemptResult → Bool
  | AttemptResult.transportErr _ => true
  | AttemptResult.response st _ => st == 429 || 500 ≤ st

/-- The retry loop of `doWithRetry`: `attempt` is the 0-based index of the
next attempt, `remaining` the attempts left, `lastErr` the message kept
from the last failure. Returns the final result and the number of
attempts actually made. -/
def retryLoop (oracle : Nat → AttemptResult) (lastErr : String) :
    Nat → Nat → Except String (Nat × String) × Nat
  | _, 0 => (Except.error ("max retries exceeded: " ++ lastErr), 0)
  | attempt, remaining + 1 =>
    match oracle attempt with
    | AttemptResult.transportErr m =>
      let r := retryLoop oracle m (attempt + 1) remaining
      (r.1, r.2 + 1)
    | AttemptResult.response st body =>
      if st == 429 || 500 ≤ st then
        let r := retryLoop oracle ("request failed with status " ++ toString st)
          (attempt + 1) remaining
        (r.1, r.2 + 1)
      else (Except.ok (st, body), 1)

/-- `doWithRetry`: at most `maxRetries` attempts, defaulting to 3 when the
configured value is zero. -/
def doWithRetry (maxRetries : Nat) (oracle : Nat → AttemptResult) :
    Except String (Nat × String) × Nat :=
  retryLoop oracle "" 0 (if maxRetries == 0 then 3 else maxRetries)

/-- Error alternatives of a chat-completion call. -/
inductive ChatCallError where
  | plain (msg : String)
  | providerError (e : ProviderError)
deriving DecidableEq

/-- The status handling of `OpenAIProvider.ChatCompletion` around
`doWithRetry`: any final status other than 200 becomes a structured
`ProviderError` with the response body as message and type `api_error`. -/
def openAIChatCall (name : String) (maxRetries : Nat) (oracle : Nat → AttemptResult) :
    Except ChatCallError (Nat × String) × Nat :=
  match doWithRetry maxRetries oracle with
  | (Except.error m, n) => (Except.error (ChatCallError.plain m), n)
  | (Except.ok (st, body), n) =>
    if st ≠ 200 then
      (Except.error (ChatCallError.providerError
        { provider := name, statusCode := st, message := body, type := "api_error" }), n)
    else (Except.ok (st, body), n)

/-- Outcome of a single health-probe request. -/
inductive ProbeResult where
  | transportErr (msg : String)
  | response (status : Nat)
deriving DecidableEq

/-- `OpenAIProvider.HealthCheck`: GET /models; error on transport failure
or any status other than 200. -/
def openAIHealthCheck (pr : ProbeResult) : Option String :=
  match pr with
  | ProbeResult.transportErr m => some m
  | ProbeResult.response st =>
    if st ≠ 200 then some ("health check failed with status " ++ toString st)
    else none

/-- `AnthropicProvider.HealthCheck`: minimal 1-token completion; error on
transport failure or any status other than 200 or 400. -/
def anthropicHealthCheck (pr : ProbeResult) : Option String :=
  match pr with
  | ProbeResult.transportErr m => some m
  | ProbeResult.response st =>
    if st ≠ 200 ∧ st ≠ 400 then some ("health check failed with status " ++ toString st)
    else none

/-- `OpenAIProvider.ChatCompletion` body preparation: the request is
copied and its gateway extensions removed before marshaling. -/
def openaiCleanRequest (req : ChatCompletionRequest) : ChatCompletionRequest :=
  { req with xGateway := none }

/-- `OpenAIProvider.ChatCompletionStream` body preparation: streaming is
forced on and the gateway extensions removed before marshaling. -/
def openaiStreamRequest (req : ChatCompletionRequest) : ChatCompletionRequest :=
  { req with stream := true, xGateway := none }

/-- One message in the Anthropic native request. -/
structure AnthropicMessage where
  role : String
  content : String
deriving DecidableEq

/-- The Anthropic native request: only model, messages, maxTokens,
temperature, topP, stream and system; no extension field exists. -/
structure AnthropicRequest where
  model : String
  messages : List AnthropicMessage
  maxTokens : Int
  temperature : Option Rat
  topP : Option Rat
  stream : Bool
  system : String
deriving DecidableEq

/-- Anthropic usage counters. -/
structure AnthropicUsage where
  inputTokens : Int
  outputTokens : Int
deriving DecidableEq

/-- One Anthropic content block. -/
structure AnthropicContent where
  type : String
  text : String
deriving DecidableEq

/-- The Anthropic native response. -/
structure AnthropicResponse where
  id : String
  type : String
  role : String
  content : List AnthropicContent
  model : String
  stopReason : String
  stopSequence : Option String
  usage : AnthropicUsage
deriving DecidableEq

/-- `AnthropicProvider.mapModel`: short aliases to versioned identifiers,
other names unchanged. -/
def mapModel (model : String) : String :=
  match List.lookup model
    [("claude-3-opus", "claude-3-opus-20240229"),
     ("claude-3-sonnet", "claude-3-sonnet-20240229"),
     ("claude-3-haiku", "claude-3-haiku-20240307"),
     ("claude-3-5-sonnet", "claude-3-5-sonnet-20241022")] with
  | some mapped => mapped
  | none => model

/-- The message loop of `AnthropicProvider.convertRequest`: the last
system message becomes the system prompt; every other message is kept in
order with role `assistant` preserved and anything else sent as `user`. -/
def convertMessages (msgs : List Message) : String × List AnthropicMessage :=
  msgs.foldl
    (fun acc msg =>
      if msg.role = "system" then (msg.content, acc.2)
      else
        (acc.1, acc.2 ++
          [{ role := if msg.role = "assistant" then "assistant" else "user",
             content := msg.content }]))
    ("", [])

/-- `AnthropicProvider.convertRequest`: native request from only model
(alias-mapped), messages, maxTokens (defaulting to 4096), temperature,
topP and the split-out system prompt. -/
def convertRequest (req : ChatCompletionRequest) : AnthropicRequest :=
  { model := mapModel req.model,
    messages := (convertMessages req.messages).2,
    maxTokens := req.maxTokens.getD 4096,
    temperature := req.temperature,
    topP := req.topP,
    stream := false,
    system := (convertMessages req.messages).1 }

/-- `AnthropicProvider.convertResponse`: canonical response with the text
blocks concatenated and `TotalTokens` computed as input + output. -/
def convertResponse (resp : AnthropicResponse) (requestModel : String) (created : Int) :
    ChatCompletionResponse :=
  let content := (resp.content.filter (fun c => c.type == "text")).foldl
    (fun acc c => acc ++ c.text) ""
  let finishReason := if resp.stopReason = "max_tokens" then "length" else "stop"
  { id := resp.id,
    object := "chat.completion",
    created := created,
    model := requestModel,
    choices := [{ index := 0,
                  message := { role := "assistant", content := content, name := "" },
                  finishReason := finishReason,
                  logprobs := none }],
    usage := { promptTokens := resp.usage.inputTokens,
               completionTokens := resp.usage.outputTokens,
               totalTokens := resp.usage.inputTokens + resp.usage.outputTokens },
    systemFingerprint := "" }

/-! The chat-completion handler (`Server.handleChatCompletion` together
with `handleStreamingCompletion`). The cache and the provider call are
embedded as oracles; the result collects the observable effects: response
status and error type, provider calls made, and the usage records handed
to the metrics collector's `RecordRequest`. -/

/-- Cache wiring of the server: whether a cache is configured and what a
lookup of a key would return. -/
structure HandlerConfig where
  cacheEnabled : Bool
  cacheLookup : String → Option (List Nat)

/-- Result of the single provider call a request makes. -/
inductive CallOutcome where
  | ok (resp : ChatCompletionResponse)
  | provErr (e : ProviderError)
  | otherErr (msg : String)

/-- One provider invocation observed during handling. -/
structure ProviderCall where
  providerName : String
  model : String
  stream : Bool
deriving DecidableEq

/-- Observable effects of handling one request. -/
structure HandlerResult where
  status : Nat
  errType : Option String
  cacheHit : Bool
  calls : List ProviderCall
  records : List ProviderMetrics
  stored : List String
deriving DecidableEq

/-- Cache participation flag: `req.XGateway == nil || req.XGateway.Cache
== nil || *req.XGateway.Cache`. -/
def cacheAllowed (req : ChatCompletionRequest) : Bool :=
  match req.xGateway with
  | none => true
  | some g =>
    match g.cache with
    | none => true
    | some b => b

/-- The usage record built on the non-streaming success path. -/
def usageRecordOf (provName model : String) (u : Usage) (latency : Int) (cost : Rat)
    (now : Nat) : ProviderMetrics :=
  { provider := provName, model := model, promptTokens := u.promptTokens,
    completionTokens := u.completionTokens, totalTokens := u.totalTokens,
    latencyMs := latency, cost := cost, cached := false, success := true,
    timestamp := now }

/-- The best-effort record of the streaming path: only provider, model,
success and timestamp are filled in. -/
def streamRecordOf (provName model : String) (now : Nat) : ProviderMetrics :=
  { provider := provName, model := model, promptTokens := 0, completionTokens := 0,
    totalTokens := 0, latencyMs := 0, cost := 0, cached := false, success := true,
    timestamp := now }

/-- The dispatch phase reached after cache miss (or cache bypass): the
streaming relay or the non-streaming provider call, error propagation,
metrics recording and the cache store of a successful response. -/
def dispatchPhase (cfg : HandlerConfig) (req : ChatCompletionRequest) (prov : Provider)
    (outcome : CallOutcome) (latency : Int) (now : Nat) : HandlerResult :=
  if req.stream then
    match outcome with
    | CallOutcome.ok _ =>
      { status := 200, errType := none, cacheHit := false,
        calls := [{ providerName := prov.name, model := req.model, stream := true }],
        records := [streamRecordOf prov.name req.model now], stored := [] }
    | CallOutcome.provErr e =>
      { status := e.statusCode, errType := some e.type, cacheHit := false,
        calls := [{ providerName := prov.name, model := req.model, stream := true }],
        records := [], stored := [] }
    | CallOutcome.otherErr _ =>
      { status := 500, errType := some "provider_error", cacheHit := false,
        calls := [{ providerName := prov.name, model := req.model, stream := true }],
        records := [], stored := [] }
  else
    match outcome with
    | CallOutcome.ok resp =>
      let cost := calculateCost req.model resp.usage.promptTokens resp.usage.completionTokens
      { status := 200, errType := none, cacheHit := false,
        calls := [{ providerName := prov.name, model := req.model, stream := false }],
        records := [usageRecordOf prov.name req.model resp.usage latency cost now],
        stored := if cfg.cacheEnabled && cacheAllowed req then [generateCacheKey req] else [] }
    | CallOutcome.provErr e =>
      { status := e.statusCode, errType := some e.type, cacheHit := false,
        calls := [{ providerName := prov.name, model := req.model, stream := false }],
        records := [], stored := [] }
    | CallOutcome.otherErr _ =>
      { status := 500, errType := some "provider_error", cacheHit := false,
        calls := [{ providerName := prov.name, model := req.model, stream := false }],
        records := [], stored := [] }

/-- `Server.handleChatCompletion` after request parsing: provider
resolution (400 `model not found` on failure), the non-streaming cache
lookup, then dispatch. -/
def handleChatCompletion (reg : Registry) (cfg : HandlerConfig) (req : ChatCompletionRequest)
    (outcome : CallOutcome) (latency : Int) (now : Nat) : HandlerResult :=
  match getForModel reg req.model with
  | Except.error _ =>
    { status := 400, errType := some "model not found", cacheHit := false,
      calls := [], records := [], stored := [] }
  | Except.ok prov =>
    if !req.stream && cfg.cacheEnabled && cacheAllowed req then
      match cfg.cacheLookup (generateCacheKey req) with
      | some _ =>
        { status := 200, errType := none, cacheHit := true,
          calls := [], records := [], stored := [] }
      | none => dispatchPhase cfg req prov outcome latency now
    else dispatchPhase cfg req prov outcome latency now

/-! The rate limiter. The repo delegates the bucket itself to the
`golang.org/x/time/rate` dependency; per that library's documented
semantics a limiter of burst `b` starts full and `Allow` consumes one
token when at least one is available, else denies without waiting. The
claims fix elapsed time at zero, so no refill occurs and the bucket state
is just its remaining token count. -/

/-- A token bucket at zero elapsed time: burst capacity and tokens left. -/
structure Bucket where
  burst : Nat
  tokens : Nat
deriving DecidableEq

/-- `rate.NewLimiter` bucket: starts with a full burst. -/
def newBucket (c : Nat) : Bucket := { burst := c, tokens := c }

/-- `Limiter.Allow` at zero elapsed time: consume one token if available,
else deny immediately. -/
def Bucket.allow (b : Bucket) : Bool × Bucket :=
  if 1 ≤ b.tokens then (true, { b with tokens := b.tokens - 1 }) else (false, b)

/-- `RateLimiter` state: optional global bucket, per-key buckets, and the
per-key quota used when a bucket is first created. -/
structure RateLimiterState where
  global : Option Bucket
  perKey : List (String × Bucket)
  perKeyCapacity : Nat
deriving DecidableEq

/-- `RateLimiter.getLimiter`: return the existing bucket for the key, or
create a full one from the per-key quota and remember it. -/
def getLimiter (rl : RateLimiterState) (key : String) : Bucket × RateLimiterState :=
  match List.lookup key rl.perKey with
  | some b => (b, rl)
  | none =>
    let b := newBucket rl.perKeyCapacity
    (b, { rl with perKey := (key, b) :: rl.perKey })

/-- Store the mutated bucket for a key back into the map. -/
def updateKey (key : String) (b : Bucket) (l : List (String × Bucket)) :
    List (String × Bucket) :=
  l.map (fun kb => if kb.1 == key then (kb.1, b) else kb)

/-- `RateLimiter.Allow`: the global bucket is consulted (and consumed)
first; only if it grants is the per-key bucket consulted. -/
def rlAllow (rl : RateLimiterState) (key : String) : Bool × RateLimiterState :=
  match rl.global with
  | some g =>
    let gr := g.allow
    if gr.1 = false then (false, { rl with global := some gr.2 })
    else
      let rl1 := { rl with global := some gr.2 }
      let br := getLimiter rl1 key
      let ar := br.1.allow
      (ar.1, { br.2 with perKey := updateKey key ar.2 br.2.perKey })
  | none =>
    let br := getLimiter rl key
    let ar := br.1.allow
    (ar.1, { br.2 with perKey := updateKey key ar.2 br.2.perKey })

/-- Results of `n` consecutive `Allow` calls for one key. -/
def allowN (rl : RateLimiterState) (key : String) : Nat → List Bool × RateLimiterState
  | 0 => ([], rl)
  | n + 1 =>
    let r := rlAllow rl key
    let rest := allowN r.2 key n
    (r.1 :: rest.1, rest.2)

/-- A limiter with no global bucket, no per-key state yet, quota `C`. -/
def freshLimiter (C : Nat) : RateLimiterState :=
  { global := none, perKey := [], perKeyCapacity := C }

/-! Theorems. -/

/-- C4: requests agreeing on model, messages, temperature and maxTokens
produce the same cache key, whatever their other fields (stream, user,
topP, stop, extensions, and the rest) are: the fingerprint digest reads
exactly those four fields. -/
theorem fingerprint_determinism (r1 r2 : ChatCompletionRequest)
    (h1 : r1.model = r2.model) (h2 : r1.messages = r2.messages)
    (h3 : r1.temperature = r2.temperature) (h4 : r1.maxTokens = r2.maxTokens) :
    generateCacheKey r1 = generateCacheKey r2 := by
  unfold generateCacheKey fingerprintData
  rw [h1, h2, h3, h4]

/-- A sample request for the fingerprint witness. -/
def reqFpA : ChatCompletionRequest :=
  { model := "gpt-4",
    messages := [{ role := "user", content := "hi", name := "" }],
    temperature := some (1/2), topP := none, n := none, stream := false,
    stop := [], maxTokens := some 100, presencePenalty := none,
    frequencyPenalty := none, user := "", xGateway := none }

/-- The same request with different stream, user, topP, stop and
extensions. -/
def reqFpB : ChatCompletionRequest :=
  { reqFpA with
    stream := true
    user := "alice"
    topP := some 1
    stop := ["x"]
    xGateway := some { cache := some false, timeout := none, provider := "openai",
                       metadata := [("k", "v")] } }

/-- Witness for C4 at two concrete requests that differ in stream, user,
topP, stop and extensions. -/
theorem fingerprint_determinism_witness :
    generateCacheKey reqFpA = generateCacheKey reqFpB ∧
      reqFpA.stream ≠ reqFpB.stream ∧ reqFpA.xGateway ≠ reqFpB.xGateway :=
  ⟨fingerprint_determinism reqFpA reqFpB rfl rfl rfl rfl, by decide, by decide⟩

/-- C7: no upstream request body ever carries the gateway extensions: the
OpenAI client nils them on both paths, and the Anthropic native request is
built from only model, messages, maxTokens, temperature, topP and system,
so requests differing only in extensions produce identical upstream
bodies. -/
theorem no_extensions_forwarded_upstream :
    (∀ req : ChatCompletionRequest,
       (openaiCleanRequest req).xGateway = none ∧ (openaiStreamRequest req).xGateway = none) ∧
    (∀ (req : ChatCompletionRequest) (ext : Option GatewayExtensions),
       openaiCleanRequest { req with xGateway := ext } = openaiCleanRequest req) ∧
    (∀ (req : ChatCompletionRequest) (ext : Option GatewayExtensions),
       openaiStreamRequest { req with xGateway := ext } = openaiStreamRequest req) ∧
    (∀ (req : ChatCompletionRequest) (ext : Option GatewayExtensions),
       convertRequest { req with xGateway := ext } = convertRequest req) :=
  ⟨fun _ => ⟨rfl, rfl⟩, fun _ _ => rfl, fun _ _ => rfl, fun _ _ => rfl⟩

/-- C8 counterexample: the Anthropic health check reports a probe answered
with HTTP 400 — a non-2xx status — as healthy (`nil` error), so the claim
that every provider reports a 400 probe as an error is false. -/
theorem anthropic_health_accepts_400_counterexample :
    anthropicHealthCheck (ProbeResult.response 400) = none := by decide

/-- C8 amended: the OpenAI health check errors exactly on transport
failure or status other than 200; the Anthropic health check errors
exactly on transport failure or status other than 200 and 400. Both are
pure functions of the probe outcome and mutate no provider state. -/
theorem health_check_characterization :
    (∀ m, openAIHealthCheck (ProbeResult.transportErr m) = some m) ∧
    (∀ st, (openAIHealthCheck (ProbeResult.response st)).isSome = decide (st ≠ 200)) ∧
    (∀ m, anthropicHealthCheck (ProbeResult.transportErr m) = some m) ∧
    (∀ st, (anthropicHealthCheck (ProbeResult.response st)).isSome =
      (decide (st ≠ 200) && decide (st ≠ 400))) := by
  refine ⟨fun m => rfl, fun st => ?_, fun m => rfl, fun st => ?_⟩
  · unfold openAIHealthCheck
    by_cases h : st = 200 <;> simp [h]
  · unfold anthropicHealthCheck
    by_cases h1 : st = 200 <;> by_cases h2 : st = 400 <;> simp [h1, h2]


/-- A limiter with no global bucket and a single per-key bucket holding
`t` of `C` tokens, as it looks after some consecutive calls for one key. -/
def singleKeyLimiter (C : Nat) (key : String) (t : Nat) : RateLimiterState :=
  { global := none
    perKey := [(key, { burst := C, tokens := t })]
    perKeyCapacity := C }

/-- Behaviour of a run of `Allow` calls against one existing per-key
bucket holding `t` tokens (no global bucket, zero elapsed time): the first
`t` calls grant, the rest deny. -/
theorem allowN_single_bucket (C : Nat) (key : String) :
    ∀ n t : Nat,
      (allowN (singleKeyLimiter C key t) key n).1
        = List.replicate (min n t) true ++ List.replicate (n - t) false := by
  intro n
  induction n with
  | zero => intro t; simp [allowN]
  | succ n ih =>
    intro t
    by_cases h : 1 ≤ t
    · have hstep : rlAllow (singleKeyLimiter C key t) key =
          (true, singleKeyLimiter C key (t - 1)) := by
        simp [rlAllow, singleKeyLimiter, getLimiter, Bucket.allow, updateKey, h, List.lookup]
      simp only [allowN, hstep]
      rw [ih (t - 1)]
      have h1 : min (n + 1) t = min n (t - 1) + 1 := by omega
      have h2 : n + 1 - t = n - (t - 1) := by omega
      rw [h1, h2, List.replicate_succ, List.cons_append]
    · have ht : t = 0 := by omega
      subst ht
      have hstep : rlAllow (singleKeyLimiter C key 0) key =
          (false, singleKeyLimiter C key 0) := by
        simp [rlAllow, singleKeyLimiter, getLimiter, Bucket.allow, updateKey, List.lookup]
      simp only [allowN, hstep]
      rw [ih 0]
      simp [List.replicate_succ]

/-- C9: for a fresh per-key token bucket of capacity `C` and zero elapsed
time (no refill), `n` consecutive `Allow` calls for the same key grant
exactly the first `min n C` and deny all the rest: at most `C`
consecutive calls return true before one returns false, each grant
consuming one token and each denial returning immediately without
blocking or queueing. -/
theorem rate_limiter_capacity (C n : Nat) (key : String) :
    (allowN (freshLimiter C) key n).1
      = List.replicate (min n C) true ++ List.replicate (n - C) false ∧
    (allowN (freshLimiter C) key n).1.count true = min n C := by
  have hmain : (allowN (freshLimiter C) key n).1
      = List.replicate (min n C) true ++ List.replicate (n - C) false := by
    cases n with
    | zero => simp [allowN]
    | succ n =>
      by_cases h : 1 ≤ C
      · have hstep : rlAllow (freshLimiter C) key = (true, singleKeyLimiter C key (C - 1)) := by
          simp [rlAllow, freshLimiter, singleKeyLimiter, getLimiter, newBucket, Bucket.allow,
            updateKey, h, List.lookup]
        simp only [allowN, hstep]
        rw [allowN_single_bucket C key n (C - 1)]
        have h1 : min (n + 1) C = min n (C - 1) + 1 := by omega
        have h2 : n + 1 - C = n - (C - 1) := by omega
        rw [h1, h2, List.replicate_succ, List.cons_append]
      · have hC : C = 0 := by omega
        subst hC
        have hstep : rlAllow (freshLimiter 0) key = (false, singleKeyLimiter 0 key 0) := by
          simp [rlAllow, freshLimiter, singleKeyLimiter, getLimiter, newBucket, Bucket.allow,
            updateKey, List.lookup]
        simp only [allowN, hstep]
        rw [allowN_single_bucket 0 key n 0]
        simp [List.replicate_succ]
  refine ⟨hmain, ?_⟩
  rw [hmain]
  simp [List.count_append, List.count_replicate]

/-- C10: a call that the global bucket grants consumes a global token even
when the per-key bucket then denies: the denied caller still drains shared
global capacity. -/
theorem global_bucket_drained_on_perkey_denial
    (rl : RateLimiterState) (key : String) (g b : Bucket)
    (hg : rl.global = some g) (ht : 1 ≤ g.tokens)
    (hk : List.lookup key rl.perKey = some b) (hb : b.tokens = 0) :
    (rlAllow rl key).1 = false ∧
      (rlAllow rl key).2.global = some { burst := g.burst, tokens := g.tokens - 1 } := by
  have hga : g.allow = (true, { burst := g.burst, tokens := g.tokens - 1 }) := by
    simp [Bucket.allow, ht]
  have hba : b.allow = (false, b) := by
    simp [Bucket.allow, hb]
  unfold rlAllow
  rw [hg]
  simp only [hga, getLimiter, hk, hba]
  simp

/-- A concrete limiter for the C10 witness: global bucket with 2 tokens
left, the per-key bucket for "k" exhausted. -/
def rlDrainW : RateLimiterState :=
  { global := some { burst := 5, tokens := 2 }
    perKey := [("k", { burst := 5, tokens := 0 })]
    perKeyCapacity := 5 }

/-- Witness for C10: the exhausted key is denied yet the global bucket
drops from 2 tokens to 1. -/
theorem global_bucket_drained_on_perkey_denial_witness :
    (rlAllow rlDrainW "k").1 = false ∧
      (rlAllow rlDrainW "k").2.global = some { burst := 5, tokens := 1 } :=
  global_bucket_drained_on_perkey_denial rlDrainW "k"
    { burst := 5, tokens := 2 } { burst := 5, tokens := 0 } rfl (by decide) rfl rfl

/-- Full behaviour of the retry loop: the attempt count is bounded by the
budget, a success takes at least one attempt, every attempt that was
followed by another one was a retry trigger, and when the budget is
exhausted every attempt made was a retry trigger. -/
theorem retryLoop_spec (oracle : Nat → AttemptResult) :
    ∀ (remaining attempt : Nat) (lastErr : String),
      (retryLoop oracle lastErr attempt remaining).2 ≤ remaining ∧
      (∀ st body, (retryLoop oracle lastErr attempt remaining).1 = Except.ok (st, body) →
         1 ≤ (retryLoop oracle lastErr attempt remaining).2) ∧
      (∀ j, j + 1 < (retryLoop oracle lastErr attempt remaining).2 →
         retriable (oracle (attempt + j)) = true) ∧
      (∀ e, (retryLoop oracle lastErr attempt remaining).1 = Except.error e →
         ∀ j, j < (retryLoop oracle lastErr attempt remaining).2 →
           retriable (oracle (attempt + j)) = true) := by
  intro remaining
  induction remaining with
  | zero =>
    intro attempt lastErr
    refine ⟨Nat.le_refl 0, ?_, ?_, ?_⟩
    · intro st body h
      simp [retryLoop] at h
    · intro j hj
      simp [retryLoop] at hj
    · intro e _ j hj
      simp [retryLoop] at hj
  | succ remaining ih =>
    intro attempt lastErr
    cases horacle : oracle attempt with
    | transportErr m =>
      obtain ⟨ih1, ih2, ih3, ih4⟩ := ih (attempt + 1) m
      have hretr : retriable (oracle attempt) = true := by
        rw [horacle]; rfl
      simp only [retryLoop, horacle]
      refine ⟨by omega, fun st body _ => by omega, ?_, ?_⟩
      · intro j hj
        cases j with
        | zero => simpa using hretr
        | succ k =>
          have hk : k + 1 < (retryLoop oracle m (attempt + 1) remaining).2 := by omega
          have := ih3 k hk
          rw [show attempt + (k + 1) = attempt + 1 + k from by omega]
          exact this
      · intro e he j hj
        cases j with
        | zero => simpa using hretr
        | succ k =>
          have hk : k < (retryLoop oracle m (attempt + 1) remaining).2 := by omega
          have := ih4 e he k hk
          rw [show attempt + (k + 1) = attempt + 1 + k from by omega]
          exact this
    | response st body =>
      cases hcond : (st == 429 || decide (500 ≤ st)) with
      | true =>
        obtain ⟨ih1, ih2, ih3, ih4⟩ :=
          ih (attempt + 1) ("request failed with status " ++ toString st)
        have hretr : retriable (oracle attempt) = true := by
          rw [horacle]
          simpa [retriable] using hcond
        simp only [retryLoop, horacle, hcond, if_true]
        refine ⟨by omega, fun st2 body2 _ => by omega, ?_, ?_⟩
        · intro j hj
          cases j with
          | zero => simpa using hretr
          | succ k =>
            have hk : k + 1 <
                (retryLoop oracle ("request failed with status " ++ toString st)
                  (attempt + 1) remaining).2 := by omega
            have := ih3 k hk
            rw [show attempt + (k + 1) = attempt + 1 + k from by omega]
            exact this
        · intro e he j hj
          cases j with
          | zero => simpa using hretr
          | succ k =>
            have hk : k <
                (retryLoop oracle ("request failed with status " ++ toString st)
                  (attempt + 1) remaining).2 := by omega
            have := ih4 e he k hk
            rw [show attempt + (k + 1) = attempt + 1 + k from by omega]
            exact this
      | false =>
        simp only [retryLoop, horacle]
        rw [if_neg (by simp [hcond])]
        refine ⟨by omega, fun st2 body2 _ => by omega, ?_, ?_⟩
        · intro j hj
          simp at hj
        · intro e he j hj
          simp at he

/-- A first attempt answered with a non-retriable non-200 status is
returned after exactly one attempt as a structured provider error. -/
theorem openAIChatCall_nonretriable (name : String) (maxRetries : Nat)
    (oracle : Nat → AttemptResult) (st : Nat) (body : String)
    (h0 : oracle 0 = AttemptResult.response st body)
    (h429 : st ≠ 429) (h5xx : st < 500) (h200 : st ≠ 200) :
    openAIChatCall name maxRetries oracle =
      (Except.error (ChatCallError.providerError
        { provider := name, statusCode := st, message := body, type := "api_error" }), 1) := by
  have hcond : (st == 429 || decide (500 ≤ st)) = false := by
    rw [Bool.or_eq_false_iff]
    exact ⟨beq_eq_false_iff_ne.mpr h429, decide_eq_false_iff_not.mpr (by omega)⟩
  have hloop : ∀ remaining lastErr,
      retryLoop oracle lastErr 0 (remaining + 1) = (Except.ok (st, body), 1) := by
    intro remaining lastErr
    simp only [retryLoop, h0, hcond]
    simp
  unfold openAIChatCall doWithRetry
  cases maxRetries with
  | zero =>
    rw [show ((0 : Nat) == 0) = true from rfl]
    simp only [if_true]
    rw [show (3 : Nat) = 2 + 1 from rfl, hloop 2 ""]
    simp [h200]
  | succ k =>
    rw [show ((k + 1 : Nat) == 0) = false from rfl]
    simp only [Bool.false_eq_true, if_false]
    rw [hloop k ""]
    simp [h200]

/-- The scenario of two 500 answers followed by a 200: success after
exactly three attempts under the default retry budget. -/
theorem openAIChatCall_scenarioC (name : String) (oracle : Nat → AttemptResult)
    (b1 b2 body : String)
    (h0 : oracle 0 = AttemptResult.response 500 b1)
    (h1 : oracle 1 = AttemptResult.response 500 b2)
    (h2 : oracle 2 = AttemptResult.response 200 body) :
    openAIChatCall name 0 oracle = (Except.ok (200, body), 3) := by
  unfold openAIChatCall doWithRetry
  rw [show ((0 : Nat) == 0) = true from rfl]
  simp only [if_true]
  rw [show (3 : Nat) = 2 + 1 from rfl]
  simp only [retryLoop, h0, h1, h2]
  norm_num

/-- C6: for every provider call, (a) at most `maxRetries` attempts are
made, 3 when the configured value is zero; (b) every attempt followed by
another attempt hit a retry trigger (transport failure, 429 or 5xx), and
(c) when all retries are exhausted every attempt hit a trigger — so the
client never retries anything else; (d) a first answer with a 4xx status
other than 429 returns after exactly one attempt as a structured
`ProviderError` carrying provider, statusCode, message and type; and
(e) with a mock answering 500, 500, then 200, the call succeeds with
exactly three upstream attempts. -/
theorem retry_policy :
    (∀ (maxRetries : Nat) (oracle : Nat → AttemptResult),
       (doWithRetry maxRetries oracle).2 ≤ (if maxRetries = 0 then 3 else maxRetries)) ∧
    (∀ (maxRetries : Nat) (oracle : Nat → AttemptResult) (j : Nat),
       j + 1 < (doWithRetry maxRetries oracle).2 → retriable (oracle j) = true) ∧
    (∀ (maxRetries : Nat) (oracle : Nat → AttemptResult) (e : String),
       (doWithRetry maxRetries oracle).1 = Except.error e →
       ∀ j, j < (doWithRetry maxRetries oracle).2 → retriable (oracle j) = true) ∧
    (∀ (name : String) (maxRetries : Nat) (oracle : Nat → AttemptResult) (st : Nat)
       (body : String), oracle 0 = AttemptResult.response st body →
       400 ≤ st → st < 500 → st ≠ 429 →
       openAIChatCall name maxRetries oracle =
         (Except.error (ChatCallError.providerError
           { provider := name, statusCode := st, message := body, type := "api_error" }), 1)) ∧
    (∀ (name : String) (oracle : Nat → AttemptResult) (b1 b2 body : String),
       oracle 0 = AttemptResult.response 500 b1 →
       oracle 1 = AttemptResult.response 500 b2 →
       oracle 2 = AttemptResult.response 200 body →
       openAIChatCall name 0 oracle = (Except.ok (200, body), 3)) := by
  have hbudget : ∀ maxRetries : Nat,
      (if (maxRetries == 0) then 3 else maxRetries) = (if maxRetries = 0 then 3 else maxRetries) := by
    intro maxRetries
    cases maxRetries <;> simp
  refine ⟨?_, ?_, ?_, ?_, ?_⟩
  · intro maxRetries oracle
    have h := (retryLoop_spec oracle (if (maxRetries == 0) then 3 else maxRetries) 0 "").1
    unfold doWithRetry
    rw [← hbudget maxRetries]
    exact h
  · intro maxRetries oracle j hj
    have h := (retryLoop_spec oracle (if (maxRetries == 0) then 3 else maxRetries) 0 "").2.2.1 j
    unfold doWithRetry at hj
    simpa using h hj
  · intro maxRetries oracle e he j hj
    have h := (retryLoop_spec oracle (if (maxRetries == 0) then 3 else maxRetries) 0 "").2.2.2 e
    unfold doWithRetry at he hj
    simpa using h he j hj
  · intro name maxRetries oracle st body h0 h400 h5xx h429
    exact openAIChatCall_nonretriable name maxRetries oracle st body h0 h429 h5xx (by omega)
  · intro name oracle b1 b2 body h0 h1 h2
    exact openAIChatCall_scenarioC name oracle b1 b2 body h0 h1 h2

/-- The C6 witness mock: every attempt is answered with HTTP 404. -/
def oracle404 : Nat → AttemptResult := fun _ => AttemptResult.response 404 "nf"

/-- Witness for C6: a 404 answer comes back after exactly one attempt as a
structured provider error. -/
theorem retry_policy_witness :
    openAIChatCall "openai" 0 oracle404 =
      (Except.error (ChatCallError.providerError
        { provider := "openai", statusCode := 404, message := "nf", type := "api_error" }), 1) :=
  retry_policy.2.2.2.1 "openai" 0 oracle404 404 "nf" rfl (by decide) (by decide) (by decide)

/-- When the model is not in the alias table, no provider supports it and
the default provider is unset or unregistered, `GetForModel` returns the
not-found error. -/
theorem getForModel_not_found (reg : Registry) (model : String)
    (hmap : List.lookup model reg.modelMapping = none)
    (hsup : ∀ pr ∈ reg.providers, supportsModel pr.2 model = false)
    (hdef : reg.defaultProvider = "" ∨ List.lookup reg.defaultProvider reg.providers = none) :
    getForModel reg model = Except.error ("no provider found for model: " ++ model) := by
  have hfind : reg.providers.find? (fun pr => supportsModel pr.2 model) = none := by
    rw [List.find?_eq_none]
    intro x hx
    simp [hsup x hx]
  unfold getForModel
  rw [hmap]
  unfold getForModelFallback scanProviders
  simp only [hfind]
  rcases hdef with h | h
  · simp [h]
  · by_cases hne : reg.defaultProvider = ""
    · simp [hne]
    · simp [hne, h]

/-- Every provider call of the dispatch phase carries the request's model
name unchanged. -/
theorem dispatchPhase_calls_model (cfg : HandlerConfig) (req : ChatCompletionRequest)
    (prov : Provider) (outcome : CallOutcome) (latency : Int) (now : Nat) :
    ∀ c ∈ (dispatchPhase cfg req prov outcome latency now).calls, c.model = req.model := by
  unfold dispatchPhase
  cases outcome <;> split <;> simp

/-- Every provider call the handler makes carries the request's model name
unchanged: resolution picks a provider but never substitutes the model. -/
theorem handle_calls_model (reg : Registry) (cfg : HandlerConfig) (req : ChatCompletionRequest)
    (outcome : CallOutcome) (latency : Int) (now : Nat) :
    ∀ c ∈ (handleChatCompletion reg cfg req outcome latency now).calls, c.model = req.model := by
  unfold handleChatCompletion
  split
  · simp
  · next prov hg =>
    split
    · split
      · simp
      · exact dispatchPhase_calls_model cfg req prov outcome latency now
    · exact dispatchPhase_calls_model cfg req prov outcome latency now

/-- C1: a chat-completion request whose model is not in the alias table,
is supported by no provider, and cannot be resolved through the default
provider (unset or unregistered) is answered 400 with the not-found error
type, with no provider called and no usage record written; and resolution
never substitutes the model name — every provider call any request makes
carries the request's own model. -/
theorem unresolvable_model_returns_not_found
    (reg : Registry) (cfg : HandlerConfig) (req : ChatCompletionRequest)
    (outcome : CallOutcome) (latency : Int) (now : Nat)
    (hmap : List.lookup req.model reg.modelMapping = none)
    (hsup : ∀ pr ∈ reg.providers, supportsModel pr.2 req.model = false)
    (hdef : reg.defaultProvider = "" ∨ List.lookup reg.defaultProvider reg.providers = none) :
    (handleChatCompletion reg cfg req outcome latency now).status = 400 ∧
    (handleChatCompletion reg cfg req outcome latency now).errType = some "model not found" ∧
    (handleChatCompletion reg cfg req outcome latency now).calls = [] ∧
    (handleChatCompletion reg cfg req outcome latency now).records = [] ∧
    (∀ (reg2 : Registry) (cfg2 : HandlerConfig) (req2 : ChatCompletionRequest)
       (outcome2 : CallOutcome) (latency2 : Int) (now2 : Nat),
       ∀ c ∈ (handleChatCompletion reg2 cfg2 req2 outcome2 latency2 now2).calls,
         c.model = req2.model) := by
  have hg := getForModel_not_found reg req.model hmap hsup hdef
  refine ⟨?_, ?_, ?_, ?_,
    fun reg2 cfg2 req2 o2 l2 n2 => handle_calls_model reg2 cfg2 req2 o2 l2 n2⟩ <;>
    simp [handleChatCompletion, hg]

/-- The OpenAI-shaped provider used by the concrete handler scenarios. -/
def provW : Provider := { kind := ProviderKind.openai, name := "openai", models := ["gpt-4"] }

/-- A registry with no default provider configured. -/
def regNoDefault : Registry :=
  { providers := [("openai", provW)],
    modelMapping := [("gpt-4", "openai")],
    fallbackChain := [],
    defaultProvider := "" }

/-- A registry with a default provider configured. -/
def regW : Registry :=
  { providers := [("openai", provW)],
    modelMapping := [("gpt-4", "openai")],
    fallbackChain := [],
    defaultProvider := "openai" }

/-- Server wiring with the response cache disabled. -/
def cfgOff : HandlerConfig := { cacheEnabled := false, cacheLookup := fun _ => none }

/-- A plain non-streaming request for gpt-4. -/
def reqChat : ChatCompletionRequest :=
  { model := "gpt-4",
    messages := [{ role := "user", content := "hi", name := "" }],
    temperature := none, topP := none, n := none, stream := false, stop := [],
    maxTokens := none, presencePenalty := none, frequencyPenalty := none, user := "",
    xGateway := none }

/-- The same request for a model that nothing resolves. -/
def reqUnknown : ChatCompletionRequest := { reqChat with model := "unknown-model-xyz" }

/-- Witness for C1: the unknown model against the default-less registry is
answered 400 / model not found with no calls and no records. -/
theorem unresolvable_model_returns_not_found_witness :
    (handleChatCompletion regNoDefault cfgOff reqUnknown (CallOutcome.otherErr "er") 0 0).status
        = 400 ∧
    (handleChatCompletion regNoDefault cfgOff reqUnknown (CallOutcome.otherErr "er") 0 0).errType
        = some "model not found" ∧
    (handleChatCompletion regNoDefault cfgOff reqUnknown (CallOutcome.otherErr "er") 0 0).calls
        = [] ∧
    (handleChatCompletion regNoDefault cfgOff reqUnknown (CallOutcome.otherErr "er") 0 0).records
        = [] := by
  have h := unresolvable_model_returns_not_found regNoDefault cfgOff reqUnknown
    (CallOutcome.otherErr "er") 0 0 (by decide) (by decide) (Or.inl rfl)
  exact ⟨h.1, h.2.1, h.2.2.1, h.2.2.2.1⟩

/-- C2 counterexample: a non-streaming request that reaches dispatch and
whose provider call fails records no usage record at all — the claim that
exactly one `UsageRecord` is recorded on failure is false. The single
provider call shows the request did reach dispatch. -/
theorem provider_failure_records_no_usage_counterexample :
    (handleChatCompletion regW cfgOff reqChat
        (CallOutcome.provErr { provider := "openai", statusCode := 500,
                               message := "upstream boom", type := "api_error" }) 0 0).calls.length
      = 1 ∧
    (handleChatCompletion regW cfgOff reqChat
        (CallOutcome.provErr { provider := "openai", statusCode := 500,
                               message := "upstream boom", type := "api_error" }) 0 0).records
      = [] := by
  exact ⟨by decide, by decide⟩

/-- C2 amended: a non-streaming request that reaches dispatch makes
exactly one provider call and records exactly one usage record when the
call succeeds and none when it fails. -/
theorem dispatch_usage_record_count
    (reg : Registry) (cfg : HandlerConfig) (req : ChatCompletionRequest)
    (outcome : CallOutcome) (latency : Int) (now : Nat) (prov : Provider)
    (hprov : getForModel reg req.model = Except.ok prov)
    (hstream : req.stream = false)
    (hdisp : cfg.cacheEnabled = false ∨ cacheAllowed req = false ∨
      cfg.cacheLookup (generateCacheKey req) = none) :
    (handleChatCompletion reg cfg req outcome latency now).calls.length = 1 ∧
    (handleChatCompletion reg cfg req outcome latency now).records.length =
      (match outcome with
       | CallOutcome.ok _ => 1
       | CallOutcome.provErr _ => 0
       | CallOutcome.otherErr _ => 0) := by
  have hdp : (dispatchPhase cfg req prov outcome latency now).calls.length = 1 ∧
      (dispatchPhase cfg req prov outcome latency now).records.length =
        (match outcome with
         | CallOutcome.ok _ => 1
         | CallOutcome.provErr _ => 0
         | CallOutcome.otherErr _ => 0) := by
    unfold dispatchPhase
    rw [hstream]
    cases outcome <;> simp
  simp only [handleChatCompletion, hprov, hstream, Bool.not_false, Bool.true_and]
  rcases hdisp with h | h | h
  · simpa [h] using hdp
  · simpa [h] using hdp
  · by_cases hc : (cfg.cacheEnabled && cacheAllowed req) = true
    · simpa [hc, h] using hdp
    · simpa [hc] using hdp

/-- Witness for C2 (amended): the same dispatch-reaching request with a
successful provider call records exactly one usage record. -/
theorem dispatch_usage_record_count_witness :
    (handleChatCompletion regW cfgOff reqChat
        (CallOutcome.ok { id := "id2", object := "chat.completion", created := 0,
                          model := "gpt-4", choices := [],
                          usage := { promptTokens := 3, completionTokens := 4, totalTokens := 7 },
                          systemFingerprint := "" }) 0 0).calls.length = 1 ∧
    (handleChatCompletion regW cfgOff reqChat
        (CallOutcome.ok { id := "id2", object := "chat.completion", created := 0,
                          model := "gpt-4", choices := [],
                          usage := { promptTokens := 3, completionTokens := 4, totalTokens := 7 },
                          systemFingerprint := "" }) 0 0).records.length = 1 := by
  have h := dispatch_usage_record_count regW cfgOff reqChat
    (CallOutcome.ok { id := "id2", object := "chat.completion", created := 0,
                      model := "gpt-4", choices := [],
                      usage := { promptTokens := 3, completionTokens := 4, totalTokens := 7 },
                      systemFingerprint := "" }) 0 0 provW rfl rfl (Or.inl rfl)
  exact ⟨h.1, h.2⟩

/-- On the non-streaming success path the only record is the one built
from the provider response's usage. -/
theorem dispatchPhase_ok_record (cfg : HandlerConfig) (req : ChatCompletionRequest)
    (prov : Provider) (resp : ChatCompletionResponse) (latency : Int) (now : Nat)
    (hstream : req.stream = false) (r : ProviderMetrics)
    (hr : r ∈ (dispatchPhase cfg req prov (CallOutcome.ok resp) latency now).records) :
    r = usageRecordOf prov.name req.model resp.usage latency
      (calculateCost req.model resp.usage.promptTokens resp.usage.completionTokens) now := by
  unfold dispatchPhase at hr
  rw [hstream] at hr
  simpa using hr

/-- Every record of a non-streaming request with a successful provider
call carries the response's usage fields verbatim. -/
theorem handle_ok_record_fields (reg : Registry) (cfg : HandlerConfig)
    (req : ChatCompletionRequest) (resp : ChatCompletionResponse) (latency : Int) (now : Nat)
    (hstream : req.stream = false) (r : ProviderMetrics)
    (hr : r ∈ (handleChatCompletion reg cfg req (CallOutcome.ok resp) latency now).records) :
    r.promptTokens = resp.usage.promptTokens ∧
    r.completionTokens = resp.usage.completionTokens ∧
    r.totalTokens = resp.usage.totalTokens := by
  unfold handleChatCompletion at hr
  split at hr
  · simp at hr
  · next prov hg =>
    have hfields : r = usageRecordOf prov.name req.model resp.usage latency
        (calculateCost req.model resp.usage.promptTokens resp.usage.completionTokens) now → 
        r.promptTokens = resp.usage.promptTokens ∧
        r.completionTokens = resp.usage.completionTokens ∧
        r.totalTokens = resp.usage.totalTokens := by
      intro he
      subst he
      simp [usageRecordOf]
    split at hr
    · split at hr
      · simp at hr
      · exact hfields (dispatchPhase_ok_record cfg req prov resp latency now hstream r hr)
    · exact hfields (dispatchPhase_ok_record cfg req prov resp latency now hstream r hr)

/-- C5 amended: the Anthropic response translation always computes
`totalTokens` as input + output tokens; the dispatcher records the
provider response's usage fields verbatim on every non-streaming success,
so the accounting invariant `totalTokens = promptTokens +
completionTokens` holds on every recorded usage record exactly when the
provider response satisfies it — in particular for Anthropic-translated
responses, but not for arbitrary OpenAI-passthrough responses. -/
theorem usage_accounting_translation :
    (∀ (resp : AnthropicResponse) (model : String) (created : Int),
       (convertResponse resp model created).usage.totalTokens =
         resp.usage.inputTokens + resp.usage.outputTokens) ∧
    (∀ (reg : Registry) (cfg : HandlerConfig) (req : ChatCompletionRequest)
       (resp : ChatCompletionResponse) (latency : Int) (now : Nat),
       req.stream = false →
       ∀ r ∈ (handleChatCompletion reg cfg req (CallOutcome.ok resp) latency now).records,
         r.promptTokens = resp.usage.promptTokens ∧
         r.completionTokens = resp.usage.completionTokens ∧
         r.totalTokens = resp.usage.totalTokens) ∧
    (∀ (reg : Registry) (cfg : HandlerConfig) (req : ChatCompletionRequest)
       (resp : ChatCompletionResponse) (latency : Int) (now : Nat),
       req.stream = false →
       resp.usage.totalTokens = resp.usage.promptTokens + resp.usage.completionTokens →
       ∀ r ∈ (handleChatCompletion reg cfg req (CallOutcome.ok resp) latency now).records,
         r.totalTokens = r.promptTokens + r.completionTokens) := by
  refine ⟨fun resp model created => rfl,
    fun reg cfg req resp latency now hstream r hr =>
      handle_ok_record_fields reg cfg req resp latency now hstream r hr, ?_⟩
  intro reg cfg req resp latency now hstream hinv r hr
  obtain ⟨h1, h2, h3⟩ := handle_ok_record_fields reg cfg req resp latency now hstream r hr
  rw [h1, h2, h3, hinv]

/-- A provider response whose reported total disagrees with the sum of
its parts, as an OpenAI-compatible upstream may return. -/
def respBadTotal : ChatCompletionResponse :=
  { id := "id1", object := "chat.completion", created := 0, model := "gpt-4", choices := [],
    usage := { promptTokens := 1, completionTokens := 2, totalTokens := 5 },
    systemFingerprint := "" }

/-- C5 counterexample: dispatching that response records a usage record
with `totalTokens = 5` but `promptTokens + completionTokens = 3`: the
recorded-invariant claim is false for OpenAI-passthrough responses. -/
theorem usage_total_passthrough_counterexample :
    ((handleChatCompletion regW cfgOff reqChat (CallOutcome.ok respBadTotal) 0 0).records.map
      (fun r => (r.totalTokens, r.promptTokens + r.completionTokens))) = [(5, 3)] := by
  decide

/-- The record produced for a well-formed response, for the C5 witness. -/
def recOkW : ProviderMetrics :=
  usageRecordOf "openai" "gpt-4"
    { promptTokens := 3, completionTokens := 4, totalTokens := 7 } 0
    (calculateCost "gpt-4" 3 4) 0

/-- A well-formed provider response for the C5 witness. -/
def respOkW : ChatCompletionResponse :=
  { id := "id2", object := "chat.completion", created := 0, model := "gpt-4", choices := [],
    usage := { promptTokens := 3, completionTokens := 4, totalTokens := 7 },
    systemFingerprint := "" }

/-- Witness for C5 (amended): the record of a response satisfying the
invariant satisfies it too. -/
theorem usage_accounting_translation_witness :
    recOkW.totalTokens = recOkW.promptTokens + recOkW.completionTokens := by
  have hm : recOkW ∈ (handleChatCompletion regW cfgOff reqChat (CallOutcome.ok respOkW) 0 0).records :=
    List.Mem.head _
  have h := usage_accounting_translation.2.2 regW cfgOff reqChat respOkW 0 0 rfl (by decide)
    recOkW hm
  exact h

/-- Unfolding of the stored byte size over a cons. -/
theorem csize_cons (a : CacheItem) (l : List CacheItem) :
    csize (a :: l) = a.value.length + csize l := by
  simp [csize]

/-- Filtering never increases the stored byte size. -/
theorem csize_filter_le (p : CacheItem → Bool) (l : List CacheItem) :
    csize (l.filter p) ≤ csize l := by
  induction l with
  | nil => simp [csize]
  | cons a as ih =>
    cases hpa : p a with
    | true =>
      simp [List.filter_cons, hpa, csize_cons]
      omega
    | false =>
      simp [List.filter_cons, hpa, csize_cons]
      omega

/-- Removing a present key frees at least that entry's bytes. -/
theorem csize_lookup_removeKey (k : String) (l : List CacheItem) (it : CacheItem)
    (h : lookupItem l k = some it) :
    it.value.length + csize (removeKey k l) ≤ csize l := by
  induction l with
  | nil => simp [lookupItem] at h
  | cons hd tl ih =>
    by_cases hk : (hd.key == k) = true
    · have hfind : lookupItem (hd :: tl) k = some hd := by
        simp [lookupItem, List.find?_cons, hk]
      rw [hfind] at h
      injection h with h'
      subst h'
      have hrm : removeKey k (hd :: tl) = removeKey k tl := by
        simp [removeKey, List.filter_cons, hk]
      rw [hrm, csize_cons]
      exact Nat.add_le_add_left (csize_filter_le _ tl) _
    · have hfind : lookupItem (hd :: tl) k = lookupItem tl k := by
        simp [lookupItem, List.find?_cons, hk]
      rw [hfind] at h
      have hrm : removeKey k (hd :: tl) = hd :: removeKey k tl := by
        simp [removeKey, List.filter_cons, hk]
      rw [hrm, csize_cons, csize_cons]
      have := ih h
      omega

/-- Postcondition of the eviction loop run with enough fuel: either the
new value now fits, or the cache was emptied. -/
theorem setEvictLoop_post (m vlen : Nat) :
    ∀ (fuel : Nat) (items : List CacheItem), items.length ≤ fuel →
      csize (setEvictLoop m vlen fuel items) + vlen ≤ m ∨
        setEvictLoop m vlen fuel items = [] := by
  intro fuel
  induction fuel with
  | zero =>
    intro items hlen
    have hnil : items = [] := List.length_eq_zero.mp (Nat.le_zero.mp hlen)
    subst hnil
    right
    rfl
  | succ fuel ih =>
    intro items hlen
    by_cases hcond : (decide (csize items + vlen > m) && !items.isEmpty) = true
    · have hne : items ≠ [] := by
        have hcond' := hcond
        rw [Bool.and_eq_true] at hcond'
        obtain ⟨-, h2⟩ := hcond'
        intro hnil
        rw [hnil] at h2
        simp at h2
      have hlt := evictItems_length_lt items hne
      have hfuel : (evictItems items).length ≤ fuel := by omega
      have hres := ih (evictItems items) hfuel
      have hunfold : setEvictLoop m vlen (fuel + 1) items =
          setEvictLoop m vlen fuel (evictItems items) := by
        simp only [setEvictLoop, hcond, if_true]
      rw [hunfold]
      exact hres
    · have hunfold : setEvictLoop m vlen (fuel + 1) items = items := by
        simp only [setEvictLoop, hcond]
        simp
      rw [hunfold]
      rw [Bool.and_eq_true] at hcond
      push_neg at hcond
      by_cases hnil : items = []
      · right; exact hnil
      · left
        have h1 : ¬ decide (csize items + vlen > m) = true := by
          intro hd
          have h2 : ¬ (!items.isEmpty) = true := hcond hd
          apply h2
          simp [hnil]
        have := of_decide_eq_false (Bool.not_eq_true _ |>.mp h1)
        omega

/-- The maxSize field is untouched by every operation. -/
theorem applyOp_maxSize (c : MemCache) (op : CacheOp) : (applyOp c op).maxSize = c.maxSize := by
  cases op with
  | get now k =>
    show ((MemCache.get c now k).2).maxSize = c.maxSize
    unfold MemCache.get
    split
    · rfl
    · split <;> rfl
  | set now k v =>
    show (MemCache.set c now k v).maxSize = c.maxSize
    unfold MemCache.set
    split <;> rfl
  | del k =>
    show (MemCache.del c k).maxSize = c.maxSize
    unfold MemCache.del
    split <;> rfl
  | clear => rfl

/-- A get never grows the stored bytes (miss: unchanged; lazy expiry:
entry removed; hit: entry moved to the front). -/
theorem csize_get_le (c : MemCache) (now : Nat) (k : String) :
    csize ((MemCache.get c now k).2).items ≤ csize c.items := by
  unfold MemCache.get
  split
  · exact Nat.le_refl _
  · next it hl =>
    split
    · exact csize_filter_le _ c.items
    · have h := csize_lookup_removeKey k c.items it hl
      simpa [csize_cons] using h

/-- A delete never grows the stored bytes. -/
theorem csize_del_le (c : MemCache) (k : String) :
    csize ((MemCache.del c k).items) ≤ csize c.items := by
  unfold MemCache.del
  split
  · exact csize_filter_le _ c.items
  · exact Nat.le_refl _

/-- A set of a fresh, individually fitting value lands under the bound. -/
theorem csize_set_le (c : MemCache) (now : Nat) (k : String) (v : List Nat)
    (hfresh : lookupItem c.items k = none) (hvlen : v.length ≤ c.maxSize) :
    csize ((MemCache.set c now k v).items) ≤ c.maxSize := by
  unfold MemCache.set
  simp only [hfresh, csize_cons]
  rcases setEvictLoop_post c.maxSize v.length c.items.length c.items (Nat.le_refl _) with h | h
  · omega
  · rw [h]
    simpa [csize] using hvlen

/-- Bound preservation over a whole safe operation sequence. -/
theorem runOps_csize_le (ops : List CacheOp) : ∀ c : MemCache,
    csize c.items ≤ c.maxSize → safeOps c ops = true →
    csize (runOps c ops).items ≤ c.maxSize := by
  induction ops with
  | nil =>
    intro c h _
    simpa [runOps] using h
  | cons op rest ih =>
    intro c hinv hs
    simp only [safeOps, Bool.and_eq_true] at hs
    obtain ⟨hhead, htail⟩ := hs
    have hmax : (applyOp c op).maxSize = c.maxSize := applyOp_maxSize c op
    have hstep : csize (applyOp c op).items ≤ c.maxSize := by
      cases op with
      | get now k => exact le_trans (csize_get_le c now k) hinv
      | set now k v =>
        simp only [Bool.and_eq_true, Option.isNone_iff_eq_none, decide_eq_true_eq] at hhead
        exact csize_set_le c now k v hhead.1 hhead.2
      | del k => exact le_trans (csize_del_le c k) hinv
      | clear => simp [applyOp, MemCache.clear, csize]
    have hres := ih (applyOp c op) (by rw [hmax]; exact hstep) htail
    calc csize (runOps c (op :: rest)).items
        = csize (runOps (applyOp c op) rest).items := by simp [runOps]
      _ ≤ (applyOp c op).maxSize := hres
      _ = c.maxSize := hmax

/-- A small cache taking two sets of the same key, the second oversized. -/
def cacheUpdateCX : MemCache :=
  MemCache.set (MemCache.set (MemCache.empty 10 100) 0 "k" (List.replicate 5 0))
    0 "k" (List.replicate 20 0)

/-- C3 counterexample: after setting key "k" to 5 bytes and then to 20
bytes in a 10-byte cache, 20 bytes are stored: a `Set` whose key already
exists replaces the value in place with no size check, so the byte bound
is violated. -/
theorem cache_bound_counterexample :
    csize cacheUpdateCX.items = 20 ∧ cacheUpdateCX.maxSize = 10 := by
  exact ⟨by decide, by decide⟩

/-- C3 amended: starting from an empty cache, after any sequence of Get,
Set, Delete and Clear operations in which every Set targets a key not
currently present and a value of at most maxSize bytes, the total stored
byte size stays at most maxSize; eviction during a Set removes the entry
at the back of the access order — the least recently used — and is
independent of the entries' TTL state. A Set on an existing key replaces
the value in place with no size check, and a Set whose single value
exceeds maxSize is inserted after the cache has been emptied, so the
bound can be exceeded in those two cases. -/
theorem cache_bound_safe_sequences (maxSize ttl : Nat) (ops : List CacheOp)
    (hsafe : safeOps (MemCache.empty maxSize ttl) ops = true) :
    csize (runOps (MemCache.empty maxSize ttl) ops).items ≤ maxSize ∧
    (∀ (items : List CacheItem) (it : CacheItem), items.getLast? = some it →
       evictItems items = removeKey it.key items) ∧
    (∀ (items : List CacheItem) (f : Nat → Nat),
       evictItems (items.map (fun it => { it with expiresAt := f it.expiresAt })) =
         (evictItems items).map (fun it => { it with expiresAt := f it.expiresAt })) := by
  refine ⟨?_, ?_, ?_⟩
  · have h0 : csize (MemCache.empty maxSize ttl).items ≤ (MemCache.empty maxSize ttl).maxSize := by
      simp [MemCache.empty, csize]
    exact runOps_csize_le ops (MemCache.empty maxSize ttl) h0 hsafe
  · intro items it h
    unfold evictItems
    rw [h]
  · intro items f
    unfold evictItems
    rw [List.getLast?_map]
    cases hlast : items.getLast? with
    | none => simp
    | some it =>
      simp only [Option.map_some]
      show removeKey it.key (items.map _) = (removeKey it.key items).map _
      unfold removeKey
      rw [List.filter_map]
      rfl

/-- A safe scenario for the C3 witness: two fresh 6-byte sets into a
10-byte cache (the second evicts the least recently used first entry),
then a get, a delete and a clear. -/
def cacheOpsW : List CacheOp :=
  [CacheOp.set 0 "a" (List.replicate 6 0),
   CacheOp.set 1 "b" (List.replicate 6 0),
   CacheOp.get 2 "a",
   CacheOp.del "b",
   CacheOp.clear]

/-- Witness for C3 (amended): the safe scenario respects the byte bound. -/
theorem cache_bound_safe_sequences_witness :
    csize (runOps (MemCache.empty 10 100) cacheOpsW).items ≤ 10 :=
  (cache_bound_safe_sequences 10 100 cacheOpsW (by decide)).1
